import Mathlib

/-!
# Verification of the Banner course-schedule scraper (`bscraper-compare.py`)

Shallow embedding of the scraping and change-detection pipeline of
`src/bscraper-compare.py`, together with theorems settling the frozen
claims about it.

Modelling conventions:
* Python dict rows (one CSV row / one raw course) are association lists
  `List (String × String)`; `dict.get(k, d)` is `recGet`.
* A keyed snapshot (the Python dict `{row['CRN']: row.to_dict() ...}`)
  is a `Snap`: its key list plus a total lookup function (the lookup is
  only ever applied to members of the key list, as in the source).
* Python `str.strip()` is `pyStrip` (strip leading and trailing
  whitespace); Python string truthiness is `≠ ""`.
* Python set iteration order is unspecified; key sets here are lists
  iterated in snapshot order, and set-valued claims are stated via
  membership (or via list equalities that hold definitionally).
-/

namespace BannerSpec

/-! ## Rows (Python dicts of strings) -/

/-- One CSV row / raw course dict: an association list of field names to
string values, mirroring `row.to_dict()` in the source. -/
abbrev Record := List (String × String)

/-- `dict` lookup returning an `Option`; first binding wins, as in a
Python dict where each key occurs once. -/
def recFind (r : Record) (f : String) : Option String :=
  (r.find? (fun p => p.1 == f)).map Prod.snd

/-- Python `dict.get(field, dflt)`. -/
def recGet (r : Record) (f d : String) : String :=
  (recFind r f).getD d

/-- Python `str.strip()`: drop leading and trailing whitespace.
(Structurally recursive so that concrete values reduce in proofs.) -/
def pyStrip (s : String) : String :=
  ⟨((s.data.dropWhile Char.isWhitespace).reverse.dropWhile
      Char.isWhitespace).reverse⟩

/-! ## Snapshots keyed by CRN -/

/-- A snapshot keyed by CRN: the Python dict
`old_courses = {row['CRN'] : row.to_dict() for _, row in old_df.iterrows()}`.
`keyList` is the dict's key sequence; `get` is dict lookup (total here;
the differ only applies it to keys in `keyList`, as the source does). -/
structure Snap where
  keyList : List String
  get : String → Record

/-! ## The differ (`FileManager.compare_course_files`, lines 96-166) -/

/-- `time_location_fields = ['Days', 'Time', 'Campus', 'Classroom']`. -/
def timeLocationFields : List String := ["Days", "Time", "Campus", "Classroom"]

/-- `enrollment_fields = ['Enrollment Actual', 'Enrollment Maximum']`. -/
def enrollmentFields : List String := ["Enrollment Actual", "Enrollment Maximum"]

/-- One per-field entry of a change record:
`changes[field] = {'old': old_val, 'new': new_val}`. -/
structure ChangeEntry where
  field : String
  oldVal : String
  newVal : String
deriving DecidableEq

/-- One change record emitted for a common CRN (source lines 128-135 and
151-158): CRN, the identifying fields taken from the *new* course row,
and the per-field changes. -/
structure ChangeRecord where
  crn : String
  subject : String
  courseNumber : String
  title : String
  sectionNum : String
  changes : List ChangeEntry
deriving DecidableEq

/-- The `CourseComparison` dataclass. -/
structure CourseComparison where
  added_courses : List Record
  removed_courses : List Record
  time_location_changes : List ChangeRecord
  enrollment_changes : List ChangeRecord
deriving DecidableEq

/-- `CourseComparison([], [], [], [])`. -/
def emptyComparison : CourseComparison := ⟨[], [], [], []⟩

/-- Source lines 120-125: for each time/location field, compare
`str(old_course.get(field, 'N/A')).strip()` against the new value and
collect the differing fields with their old/new pair. -/
def fieldChanges (fields : List String) (oldC newC : Record) : List ChangeEntry :=
  fields.filterMap fun f =>
    let ov := pyStrip (recGet oldC f "N/A")
    let nv := pyStrip (recGet newC f "N/A")
    if ov ≠ nv then some ⟨f, ov, nv⟩ else none

/-- Source lines 143-148: enrollment fields compare the same way but the
comparison is skipped when either side equals `"N/A"`. -/
def enrollFieldChanges (oldC newC : Record) : List ChangeEntry :=
  enrollmentFields.filterMap fun f =>
    let ov := pyStrip (recGet oldC f "N/A")
    let nv := pyStrip (recGet newC f "N/A")
    if ov ≠ nv ∧ ov ≠ "N/A" ∧ nv ≠ "N/A" then some ⟨f, ov, nv⟩ else none

/-- `added_crns = new_crns - old_crns` (line 100), iterated in the new
snapshot's key order. -/
def addedKeys (old new : Snap) : List String :=
  new.keyList.filter fun k => decide (k ∉ old.keyList)

/-- `removed_crns = old_crns - new_crns` (line 101). -/
def removedKeys (old new : Snap) : List String :=
  old.keyList.filter fun k => decide (k ∉ new.keyList)

/-- `common_crns = old_crns & new_crns` (line 102). -/
def commonKeys (old new : Snap) : List String :=
  old.keyList.filter fun k => decide (k ∈ new.keyList)

/-- Lines 128-135 / 151-158: build a change record; the identifying
fields come from the new course row via `.get(..., '')`. -/
def mkChangeRecord (crn : String) (newRec : Record) (cs : List ChangeEntry) :
    ChangeRecord :=
  { crn := crn
    subject := recGet newRec "Subject" ""
    courseNumber := recGet newRec "Course Number" ""
    title := recGet newRec "Title" ""
    sectionNum := recGet newRec "Section" ""
    changes := cs }

/-- The common shape of the two per-CRN loops (lines 111-159): for each
common CRN compute the field-level differences with function `diff`, and
emit a change record exactly when some field differs. -/
def changeRows (old new : Snap) (diff : Record → Record → List ChangeEntry) :
    List ChangeRecord :=
  (commonKeys old new).filterMap fun crn =>
    if (diff (old.get crn) (new.get crn)).isEmpty then none
    else some (mkChangeRecord crn (new.get crn) (diff (old.get crn) (new.get crn)))

/-- The differ on two keyed snapshots (the body of
`FileManager.compare_course_files` after both dicts are built,
lines 96-166). -/
def compareSnaps (old new : Snap) : CourseComparison :=
  { added_courses := (addedKeys old new).map new.get
    removed_courses := (removedKeys old new).map old.get
    time_location_changes := changeRows old new (fieldChanges timeLocationFields)
    enrollment_changes := changeRows old new enrollFieldChanges }

/-! ## Claim C1 -/

/-- **C1.** For every pair of snapshots keyed by CRN, the differ's three
key sets satisfy `added = newKeys − oldKeys`, `removed = oldKeys − newKeys`,
`common = oldKeys ∩ newKeys`; consequently added, removed and common
together cover exactly `oldKeys ∪ newKeys`, and added and removed are
disjoint.  (Set statements are phrased via membership.) -/
theorem differ_key_sets (old new : Snap) (k : String) :
    (k ∈ addedKeys old new ↔ k ∈ new.keyList ∧ k ∉ old.keyList) ∧
    (k ∈ removedKeys old new ↔ k ∈ old.keyList ∧ k ∉ new.keyList) ∧
    (k ∈ commonKeys old new ↔ k ∈ old.keyList ∧ k ∈ new.keyList) ∧
    ((k ∈ addedKeys old new ∨ k ∈ removedKeys old new ∨ k ∈ commonKeys old new) ↔
      (k ∈ old.keyList ∨ k ∈ new.keyList)) ∧
    ¬ (k ∈ addedKeys old new ∧ k ∈ removedKeys old new) := by
  simp only [addedKeys, removedKeys, commonKeys, List.mem_filter,
    decide_eq_true_eq]
  refine ⟨trivial, trivial, trivial, ?_, ?_⟩
  · constructor
    · rintro (⟨h1, h2⟩ | ⟨h1, h2⟩ | ⟨h1, h2⟩) <;> tauto
    · rintro (h | h)
      · by_cases hn : k ∈ new.keyList <;> tauto
      · by_cases ho : k ∈ old.keyList <;> tauto
  · rintro ⟨⟨h1, h2⟩, ⟨h3, h4⟩⟩
    exact h2 h3

/-! ## Claim C2 -/

/-- Exchange the old and new value of one change entry. -/
def swapEntry (e : ChangeEntry) : ChangeEntry := ⟨e.field, e.newVal, e.oldVal⟩

/-- The (CRN, per-field changes) view of the time/location change list;
the remaining fields of a change record are course metadata copied from
the new row, not part of the change itself. -/
def tlPairs (c : CourseComparison) : List (String × List ChangeEntry) :=
  c.time_location_changes.map fun r => (r.crn, r.changes)

/-- The (CRN, per-field changes) view of the enrollment change list. -/
def enPairs (c : CourseComparison) : List (String × List ChangeEntry) :=
  c.enrollment_changes.map fun r => (r.crn, r.changes)

lemma map_swapEntry_swapEntry (l : List ChangeEntry) :
    (l.map swapEntry).map swapEntry = l := by
  induction l with
  | nil => rfl
  | cons e l ih => simp [swapEntry, ih]

lemma filterMap_eq_map_filterMap {α β : Type} (g g' : α → Option β)
    (m : β → β) (h : ∀ a, g' a = (g a).map m) (l : List α) :
    l.filterMap g' = (l.filterMap g).map m := by
  induction l with
  | nil => rfl
  | cons a l ih =>
    rw [List.filterMap_cons, List.filterMap_cons, h a]
    cases g a <;> simp [ih]

lemma fieldChanges_swap (fs : List String) (x y : Record) :
    fieldChanges fs y x = (fieldChanges fs x y).map swapEntry := by
  refine filterMap_eq_map_filterMap _ _ _ (fun f => ?_) fs
  by_cases h : pyStrip (recGet x f "N/A") = pyStrip (recGet y f "N/A")
  · simp [h]
  · simp [h, Ne.symm h, swapEntry]

lemma enrollFieldChanges_swap (x y : Record) :
    enrollFieldChanges y x = (enrollFieldChanges x y).map swapEntry := by
  refine filterMap_eq_map_filterMap _ _ _ (fun f => ?_) enrollmentFields
  by_cases h : pyStrip (recGet x f "N/A") = pyStrip (recGet y f "N/A")
  · simp [h]
  · by_cases hx : pyStrip (recGet x f "N/A") = "N/A" <;>
      by_cases hy : pyStrip (recGet y f "N/A") = "N/A" <;>
        simp [h, Ne.symm h, hx, hy, swapEntry]

/-- Membership in the (CRN, changes) view of a change-row list. -/
lemma mem_changeRows_pairs (old new : Snap)
    (diff : Record → Record → List ChangeEntry) (crn : String)
    (cs : List ChangeEntry) :
    (crn, cs) ∈ (changeRows old new diff).map (fun r => (r.crn, r.changes)) ↔
      crn ∈ old.keyList ∧ crn ∈ new.keyList ∧
        cs = diff (old.get crn) (new.get crn) ∧ cs ≠ [] := by
  simp only [changeRows, List.map_filterMap, List.mem_filterMap, commonKeys,
    List.mem_filter, decide_eq_true_eq]
  constructor
  · rintro ⟨c, ⟨hca, hcb⟩, hr⟩
    by_cases he : (diff (old.get c) (new.get c)).isEmpty
    · simp [he] at hr
    · simp only [he, if_neg, Bool.false_eq_true, not_false_iff, if_false,
        Option.map_some'] at hr
      obtain ⟨h1, h2⟩ := Prod.mk.injEq .. ▸ Option.some.inj hr
      simp only [mkChangeRecord] at h1 h2
      subst h1
      refine ⟨hca, hcb, h2.symm, ?_⟩
      rw [h2] at he
      simpa [List.isEmpty_iff] using he
  · rintro ⟨hca, hcb, rfl, hne⟩
    refine ⟨crn, ⟨hca, hcb⟩, ?_⟩
    rw [if_neg (by simpa [List.isEmpty_iff] using hne)]
    simp [mkChangeRecord]

/-- **C2.** Running the differ with old and new swapped yields a report
whose added list equals the original removed list and vice versa, and
every changed-field entry of the swapped run has its old and new values
exchanged relative to the original run (stated for the (CRN, changes)
view of both change lists). -/
theorem differ_swap (old new : Snap) :
    (compareSnaps new old).added_courses = (compareSnaps old new).removed_courses ∧
    (compareSnaps new old).removed_courses = (compareSnaps old new).added_courses ∧
    (∀ crn cs, (crn, cs) ∈ tlPairs (compareSnaps new old) ↔
      (crn, cs.map swapEntry) ∈ tlPairs (compareSnaps old new)) ∧
    (∀ crn cs, (crn, cs) ∈ enPairs (compareSnaps new old) ↔
      (crn, cs.map swapEntry) ∈ enPairs (compareSnaps old new)) := by
  refine ⟨rfl, rfl, ?_, ?_⟩
  · intro crn cs
    show (crn, cs) ∈ (changeRows new old _).map _ ↔
      (crn, cs.map swapEntry) ∈ (changeRows old new _).map _
    rw [mem_changeRows_pairs, mem_changeRows_pairs]
    constructor
    · rintro ⟨h1, h2, rfl, hne⟩
      refine ⟨h2, h1, ?_, ?_⟩
      · rw [fieldChanges_swap, map_swapEntry_swapEntry]
      · simpa using hne
    · rintro ⟨h1, h2, heq, hne⟩
      refine ⟨h2, h1, ?_, ?_⟩
      · rw [fieldChanges_swap, ← heq, map_swapEntry_swapEntry]
      · intro hcs
        exact hne (by simp [hcs])
  · intro crn cs
    show (crn, cs) ∈ (changeRows new old _).map _ ↔
      (crn, cs.map swapEntry) ∈ (changeRows old new _).map _
    rw [mem_changeRows_pairs, mem_changeRows_pairs]
    constructor
    · rintro ⟨h1, h2, rfl, hne⟩
      refine ⟨h2, h1, ?_, ?_⟩
      · rw [enrollFieldChanges_swap, map_swapEntry_swapEntry]
      · simpa using hne
    · rintro ⟨h1, h2, heq, hne⟩
      refine ⟨h2, h1, ?_, ?_⟩
      · rw [enrollFieldChanges_swap, ← heq, map_swapEntry_swapEntry]
      · intro hcs
        exact hne (by simp [hcs])

/-! ## Claim C3 -/

/-- Record-level membership in a change-row list. -/
lemma mem_changeRows (old new : Snap)
    (diff : Record → Record → List ChangeEntry) (r : ChangeRecord) :
    r ∈ changeRows old new diff ↔
      ∃ crn, crn ∈ old.keyList ∧ crn ∈ new.keyList ∧
        diff (old.get crn) (new.get crn) ≠ [] ∧
        r = mkChangeRecord crn (new.get crn) (diff (old.get crn) (new.get crn)) := by
  simp only [changeRows, List.mem_filterMap, commonKeys, List.mem_filter,
    decide_eq_true_eq]
  constructor
  · rintro ⟨c, ⟨hca, hcb⟩, hr⟩
    by_cases he : (diff (old.get c) (new.get c)).isEmpty
    · simp [he] at hr
    · simp only [he, Bool.false_eq_true, if_false] at hr
      exact ⟨c, hca, hcb, by simpa [List.isEmpty_iff] using he,
        (Option.some.inj hr).symm⟩
  · rintro ⟨c, hca, hcb, hne, rfl⟩
    exact ⟨c, ⟨hca, hcb⟩,
      by rw [if_neg (by simpa [List.isEmpty_iff] using hne)]⟩

/-- What membership in `enrollFieldChanges` tells about one entry. -/
lemma of_mem_enrollFieldChanges (x y : Record) (e : ChangeEntry)
    (he : e ∈ enrollFieldChanges x y) :
    e.field ∈ enrollmentFields ∧
    e.oldVal = pyStrip (recGet x e.field "N/A") ∧
    e.newVal = pyStrip (recGet y e.field "N/A") ∧
    e.oldVal ≠ e.newVal ∧ e.oldVal ≠ "N/A" ∧ e.newVal ≠ "N/A" := by
  simp only [enrollFieldChanges, List.mem_filterMap] at he
  obtain ⟨f, hf, hif⟩ := he
  by_cases hc : pyStrip (recGet x f "N/A") ≠ pyStrip (recGet y f "N/A") ∧
      pyStrip (recGet x f "N/A") ≠ "N/A" ∧ pyStrip (recGet y f "N/A") ≠ "N/A"
  · rw [if_pos hc] at hif
    obtain rfl := Option.some.inj hif
    exact ⟨hf, rfl, rfl, hc.1, hc.2.1, hc.2.2⟩
  · rw [if_neg hc] at hif
    cases hif

/-- **C3.** For every common CRN, the differ compares the two enrollment
fields as trimmed strings and skips a field whenever either side equals
`"N/A"`: every entry of an emitted enrollment change record carries the
trimmed old/new values of one enrollment field, these values differ, and
neither is `"N/A"`. -/
theorem enrollment_changes_no_na (old new : Snap) (r : ChangeRecord)
    (hr : r ∈ (compareSnaps old new).enrollment_changes)
    (e : ChangeEntry) (he : e ∈ r.changes) :
    e.field ∈ enrollmentFields ∧
    e.oldVal = pyStrip (recGet (old.get r.crn) e.field "N/A") ∧
    e.newVal = pyStrip (recGet (new.get r.crn) e.field "N/A") ∧
    e.oldVal ≠ e.newVal ∧ e.oldVal ≠ "N/A" ∧ e.newVal ≠ "N/A" := by
  rw [show (compareSnaps old new).enrollment_changes =
      changeRows old new enrollFieldChanges from rfl, mem_changeRows] at hr
  obtain ⟨crn, hca, hcb, hne, rfl⟩ := hr
  simp only [mkChangeRecord] at he ⊢
  exact of_mem_enrollFieldChanges _ _ _ he

/-- Concrete old snapshot for the C3 witness: one course, CRN 100. -/
def snapOldW : Snap :=
  { keyList := ["100"]
    get := fun k =>
      if k = "100" then
        [("CRN", "100"), ("Subject", "ART"), ("Enrollment Actual", "10"),
         ("Enrollment Maximum", "30")]
      else [] }

/-- Concrete new snapshot for the C3 witness: same CRN, enrollment moved
from 10 to 12. -/
def snapNewW : Snap :=
  { keyList := ["100"]
    get := fun k =>
      if k = "100" then
        [("CRN", "100"), ("Subject", "ART"), ("Enrollment Actual", "12"),
         ("Enrollment Maximum", "30")]
      else [] }

/-- The enrollment change record that `compareSnaps snapOldW snapNewW`
emits. -/
def enRecW : ChangeRecord :=
  { crn := "100", subject := "ART", courseNumber := "", title := ""
    sectionNum := "", changes := [⟨"Enrollment Actual", "10", "12"⟩] }

/-- Witness for C3 at a concrete snapshot pair. -/
theorem enrollment_changes_no_na_witness :
    (⟨"Enrollment Actual", "10", "12"⟩ : ChangeEntry).field ∈ enrollmentFields ∧
    (⟨"Enrollment Actual", "10", "12"⟩ : ChangeEntry).oldVal =
      pyStrip (recGet (snapOldW.get enRecW.crn)
        (⟨"Enrollment Actual", "10", "12"⟩ : ChangeEntry).field "N/A") ∧
    (⟨"Enrollment Actual", "10", "12"⟩ : ChangeEntry).newVal =
      pyStrip (recGet (snapNewW.get enRecW.crn)
        (⟨"Enrollment Actual", "10", "12"⟩ : ChangeEntry).field "N/A") ∧
    (⟨"Enrollment Actual", "10", "12"⟩ : ChangeEntry).oldVal ≠
      (⟨"Enrollment Actual", "10", "12"⟩ : ChangeEntry).newVal ∧
    (⟨"Enrollment Actual", "10", "12"⟩ : ChangeEntry).oldVal ≠ "N/A" ∧
    (⟨"Enrollment Actual", "10", "12"⟩ : ChangeEntry).newVal ≠ "N/A" :=
  enrollment_changes_no_na snapOldW snapNewW enRecW
    (by decide) ⟨"Enrollment Actual", "10", "12"⟩ (by decide)

/-! ## `compare_course_files` and its error handling (claims C8, C10) -/

/-- A CSV snapshot file as the differ sees it: absent, unreadable
(`pd.read_csv` raises), or readable as a list of rows. -/
inductive CSVFile
  | missing
  | malformed
  | table (rows : List Record)
deriving DecidableEq

/-- `pd.read_csv`: rows on success, `none` when the read raises
(missing file or malformed contents). -/
def readRows : CSVFile → Option (List Record)
  | .table rows => some rows
  | _ => none

/-- Build the keyed dict `{row['CRN']: row.to_dict() ...}` (lines 93-94).
`row['CRN']` raises `KeyError` when a row lacks the CRN column, hence the
`Option`; on success the key list is the rows' CRNs and lookup returns
the last row with the given CRN (later dict assignments win). -/
def buildSnap (rows : List Record) : Option Snap :=
  if rows.all (fun r => (recFind r "CRN").isSome) then
    some { keyList := rows.map (fun r => recGet r "CRN" "")
           get := fun k =>
             (rows.reverse.find? (fun r => recGet r "CRN" "" == k)).getD [] }
  else none

/-- `FileManager.compare_course_files` (lines 79-170): missing old file
short-circuits to the empty comparison; any exception while reading or
keying either file is caught and also yields the empty comparison;
otherwise the two keyed snapshots are diffed. -/
def compare_course_files (oldF newF : CSVFile) : CourseComparison :=
  if oldF = CSVFile.missing then emptyComparison
  else
    match (readRows oldF).bind buildSnap, (readRows newF).bind buildSnap with
    | some o, some n => compareSnaps o n
    | some _, none => emptyComparison
    | none, _ => emptyComparison

lemma fieldChanges_self (fs : List String) (x : Record) :
    fieldChanges fs x x = [] := by
  induction fs with
  | nil => rfl
  | cons f fs ih => simp [fieldChanges, List.filterMap_cons, ih]

lemma enrollFieldChanges_self (x : Record) : enrollFieldChanges x x = [] := by
  simp [enrollFieldChanges, List.filterMap_cons]

/-- Diffing a snapshot against itself reports no change at all. -/
lemma compareSnaps_self (s : Snap) : compareSnaps s s = emptyComparison := by
  have hfilter : (s.keyList.filter fun k => decide (k ∉ s.keyList)) = [] := by
    rw [List.filter_eq_nil_iff]
    intro k hk
    simp [hk]
  have hrows : ∀ diff : Record → Record → List ChangeEntry,
      (∀ r, diff r r = []) → changeRows s s diff = [] := by
    intro diff hdiff
    rw [changeRows, List.filterMap_eq_nil_iff]
    intro crn _
    simp [hdiff]
  simp only [compareSnaps, emptyComparison, addedKeys, removedKeys, hfilter]
  rw [hrows _ (fieldChanges_self timeLocationFields),
    hrows _ enrollFieldChanges_self]
  rfl

/-! ## Claim C8 -/

/-- **C8.** When the prior snapshot file does not exist, the differ
returns a comparison whose four lists are all empty (and, being total,
raises no error). -/
theorem compare_missing_old_empty (newF : CSVFile) :
    compare_course_files CSVFile.missing newF = emptyComparison ∧
    (compare_course_files CSVFile.missing newF).added_courses = [] ∧
    (compare_course_files CSVFile.missing newF).removed_courses = [] ∧
    (compare_course_files CSVFile.missing newF).time_location_changes = [] ∧
    (compare_course_files CSVFile.missing newF).enrollment_changes = [] := by
  refine ⟨rfl, rfl, rfl, rfl, rfl⟩

/-! ## Claim C10 -/

/-- **C10.** When both input files exist but reading or keying either of
them fails (malformed CSV, missing CRN column), the differ swallows the
exception and returns the all-empty comparison — the same value it
returns for two identical snapshots. -/
theorem compare_read_error_empty (oldF newF : CSVFile)
    (h1 : oldF ≠ CSVFile.missing)
    (h2 : (readRows oldF).bind buildSnap = none ∨
          (readRows newF).bind buildSnap = none)
    (s : Snap) :
    compare_course_files oldF newF = emptyComparison ∧
    compareSnaps s s = emptyComparison := by
  refine ⟨?_, compareSnaps_self s⟩
  rw [compare_course_files, if_neg h1]
  rcases h2 with h | h
  · rw [h]
  · rw [h]
    cases (readRows oldF).bind buildSnap <;> rfl

/-- Witness for C10: a malformed old file next to a well-formed new one. -/
theorem compare_read_error_empty_witness :
    compare_course_files CSVFile.malformed
        (CSVFile.table [[("CRN", "100")]]) = emptyComparison ∧
    compareSnaps ⟨[], fun _ => []⟩ ⟨[], fun _ => []⟩ = emptyComparison :=
  compare_read_error_empty CSVFile.malformed (CSVFile.table [[("CRN", "100")]])
    (by decide) (Or.inl rfl) ⟨[], fun _ => []⟩

/-! ## Credit-hour formatting (`BannerScraper.format_credit_hours`,
lines 681-704; claim C4) -/

/-- `format_credit_hours(course)` (lines 681-704): read
`creditHourLow` / `creditHourHigh` with default `''`, then the Python
truthiness chain `if low and high / elif low / elif high / else`. -/
def format_credit_hours (course : Record) : String × String × String :=
  let credit_low := recGet course "creditHourLow" ""
  let credit_high := recGet course "creditHourHigh" ""
  if credit_low ≠ "" ∧ credit_high ≠ "" then
    if credit_low = credit_high then (credit_low, credit_high, credit_low)
    else (credit_low, credit_high, credit_low ++ "-" ++ credit_high)
  else if credit_low ≠ "" then (credit_low, credit_high, credit_low)
  else if credit_high ≠ "" then (credit_low, credit_high, credit_high)
  else (credit_low, credit_high, "TBA")

/-- Modelled from the spec's formatting rule (§4.5): equal low/high →
single value; both present and different → `"{low}-{high}"`; only one
present → that value; neither → `"TBA"` (the equal case read, as in the
code, under "both present"). -/
def credits_formatted_spec (l h : String) : String :=
  if l ≠ "" ∧ h ≠ "" then (if l = h then l else l ++ "-" ++ h)
  else if l ≠ "" then l
  else if h ≠ "" then h
  else "TBA"

lemma append_dash_ne_tba (a b : String) : a ++ "-" ++ b ≠ "TBA" := by
  intro hEq
  have hdata : (a ++ "-" ++ b).data = (a.data ++ "-".data) ++ b.data := rfl
  have hmem : '-' ∈ (a ++ "-" ++ b).data := by
    rw [hdata]
    simp [show "-".data = ['-'] from rfl]
  rw [hEq] at hmem
  revert hmem
  decide

/-- The record on which claim C4's "iff" fails: both credit fields hold
the literal string `"TBA"`. -/
def creditCexCourse : Record :=
  [("creditHourLow", "TBA"), ("creditHourHigh", "TBA")]

/-- **C4, counterexample.** With `creditHourLow = creditHourHigh = "TBA"`
the formatted credits equal `"TBA"` although neither field is empty, so
"`credits_formatted` equals `"TBA"` iff both fields are empty" is false
as stated. -/
theorem format_credit_hours_cex :
    ¬ ((format_credit_hours creditCexCourse).2.2 = "TBA" ↔
        (recGet creditCexCourse "creditHourLow" "" = "" ∧
         recGet creditCexCourse "creditHourHigh" "" = "")) := by
  decide

/-- **C4, amended.** For every raw course record whose credit fields are
not themselves the literal string `"TBA"`: the formatted string follows
the spec's four cases (single value when both present and equal,
`"{low}-{high}"` when both present and different, the present one when
only one is present, `"TBA"` when neither), and `credits_formatted`
equals `"TBA"` iff both `creditHourLow` and `creditHourHigh` are
empty. -/
theorem format_credit_hours_correct (course : Record)
    (hl : recGet course "creditHourLow" "" ≠ "TBA")
    (hh : recGet course "creditHourHigh" "" ≠ "TBA") :
    format_credit_hours course =
      (recGet course "creditHourLow" "", recGet course "creditHourHigh" "",
        credits_formatted_spec (recGet course "creditHourLow" "")
          (recGet course "creditHourHigh" "")) ∧
    ((format_credit_hours course).2.2 = "TBA" ↔
      (recGet course "creditHourLow" "" = "" ∧
       recGet course "creditHourHigh" "" = "")) := by
  set l := recGet course "creditHourLow" "" with hldef
  set h := recGet course "creditHourHigh" "" with hhdef
  have hfmt : format_credit_hours course = (l, h, credits_formatted_spec l h) := by
    simp only [format_credit_hours, credits_formatted_spec, ← hldef, ← hhdef]
    split_ifs <;> rfl
  refine ⟨hfmt, ?_⟩
  rw [hfmt]
  by_cases hl0 : l = ""
  · by_cases hh0 : h = ""
    · simp [credits_formatted_spec, hl0, hh0]
    · simp [credits_formatted_spec, hl0, hh0, hh]
  · by_cases hh0 : h = ""
    · simp [credits_formatted_spec, hl0, hh0, hl]
    · by_cases heq : l = h
      · simp [credits_formatted_spec, hl0, hh0, heq, hh]
      · simp [credits_formatted_spec, hl0, hh0, heq, append_dash_ne_tba]

/-- Witness for C4 (amended) at a course with only `creditHourLow`. -/
theorem format_credit_hours_correct_witness :
    (format_credit_hours [("creditHourLow", "3")] =
      (recGet [("creditHourLow", "3")] "creditHourLow" "",
        recGet [("creditHourLow", "3")] "creditHourHigh" "",
        credits_formatted_spec
          (recGet [("creditHourLow", "3")] "creditHourLow" "")
          (recGet [("creditHourLow", "3")] "creditHourHigh" ""))) ∧
    ((format_credit_hours [("creditHourLow", "3")]).2.2 = "TBA" ↔
      (recGet [("creditHourLow", "3")] "creditHourLow" "" = "" ∧
       recGet [("creditHourLow", "3")] "creditHourHigh" "" = "")) :=
  format_credit_hours_correct [("creditHourLow", "3")] (by decide) (by decide)

/-! ## Days extraction (`BannerScraper.extract_days_of_week`,
lines 856-883; claim C6) -/

/-- A `meetingTime` dict as the extractor reads it: seven boolean day
flags (`meeting_time.get(day, False)` truthiness) and the optional
`meetingTimeType` string (`none` = key absent, so `.get` falls back to
`'TBA'`).  The source's guard for a falsy (empty) dict coincides with the
all-default value of this structure. -/
structure MeetingTime where
  monday : Bool
  tuesday : Bool
  wednesday : Bool
  thursday : Bool
  friday : Bool
  saturday : Bool
  sunday : Bool
  meetingTimeType : Option String
deriving DecidableEq

/-- The `day_mapping` dict (lines 862-870), in its insertion order. -/
def day_mapping : List ((MeetingTime → Bool) × String) :=
  [(MeetingTime.monday, "M"), (MeetingTime.tuesday, "T"),
   (MeetingTime.wednesday, "W"), (MeetingTime.thursday, "R"),
   (MeetingTime.friday, "F"), (MeetingTime.saturday, "S"),
   (MeetingTime.sunday, "U")]

/-- `extract_days_of_week` (lines 856-883): collect the codes of the set
flags in mapping order, join them; if none is set fall back to
`meetingTimeType`, else `"TBA"`. -/
def extract_days_of_week (mt : MeetingTime) : String :=
  let active_days := (day_mapping.filter (fun p => p.1 mt)).map Prod.snd
  if active_days.isEmpty then mt.meetingTimeType.getD "TBA"
  else String.join active_days

/-- Modelled from the spec's days rule (§4.5): concatenate the
single-letter codes of exactly the set flags in the fixed order
`M,T,W,R,F,S,U`. -/
def days_spec (mt : MeetingTime) : String :=
  (if mt.monday then "M" else "") ++ (if mt.tuesday then "T" else "") ++
  (if mt.wednesday then "W" else "") ++ (if mt.thursday then "R" else "") ++
  (if mt.friday then "F" else "") ++ (if mt.saturday then "S" else "") ++
  (if mt.sunday then "U" else "")

/-- Whether any day flag is set. -/
def anyDayFlag (mt : MeetingTime) : Bool :=
  mt.monday || mt.tuesday || mt.wednesday || mt.thursday || mt.friday ||
    mt.saturday || mt.sunday

/-! ## Claim C6 -/

/-- **C6.** For every meeting-time dict, the extracted days string is the
concatenation of the single-letter codes of exactly the set day flags, in
the fixed order `M,T,W,R,F,S,U`; when no flag is set the result is the
`meetingTimeType` value, and `"TBA"` when that is absent. -/
theorem extract_days_of_week_correct (mt : MeetingTime) :
    extract_days_of_week mt =
      (if anyDayFlag mt then days_spec mt else mt.meetingTimeType.getD "TBA") := by
  obtain ⟨m, t, w, r, f, s, u, ty⟩ := mt
  cases m <;> cases t <;> cases w <;> cases r <;> cases f <;> cases s <;>
    cases u <;>
      simp [extract_days_of_week, day_mapping, days_spec, anyDayFlag,
        String.join]

/-! ## Paginated search (`BannerScraper.search_courses`,
lines 387-451; claim C5) -/

/-- One page fetch as the loop sees it: a transport error (the
`except requests.RequestException` arm), a response without a truthy
`success` flag, or a successful page with its `data` rows. -/
inductive PageResponse
  | transportError
  | noSuccess
  | page (rows : List Record)
deriving DecidableEq

/-- `if max_pages and page_count >= max_pages` (line 430): Python `None`
and `0` are both falsy, so a `some 0` ceiling never fires. -/
def ceilingHit (maxPages : Option Nat) (pageCount : Nat) : Bool :=
  match maxPages with
  | none => false
  | some m => if m = 0 then false else decide (m ≤ pageCount)

/-- The `while True` pagination loop (lines 408-448).  `fetch` maps a
page offset to that request's outcome; `acc` is `all_courses`;
`pageCount` counts completed iterations (the source increments it at the
top of each iteration).  `fuel` bounds the number of iterations so the
function is total — the source loop has no such bound and can in
principle run forever on endlessly full pages. -/
def searchLoop (fetch : Nat → PageResponse) (pageMaxSize : Nat)
    (maxPages : Option Nat) :
    List Record → Nat → Nat → Nat → List Record
  | acc, _, _, 0 => acc
  | acc, pageOffset, pageCount, fuel + 1 =>
    match fetch pageOffset with
    | .transportError => acc
    | .noSuccess => acc
    | .page rows =>
      if rows.isEmpty then acc
      else if ceilingHit maxPages (pageCount + 1) then acc ++ rows
      else if rows.length < pageMaxSize then acc ++ rows
      else searchLoop fetch pageMaxSize maxPages (acc ++ rows)
          (pageOffset + pageMaxSize) (pageCount + 1) fuel

/-- `search_courses`: run the loop from offset 0 with an empty
accumulator. -/
def search_courses (fetch : Nat → PageResponse) (pageMaxSize : Nat)
    (maxPages : Option Nat) (fuel : Nat) : List Record :=
  searchLoop fetch pageMaxSize maxPages [] 0 0 fuel

/-- The loop only ever appends to its accumulator: rows are returned in
insertion order after whatever was already accumulated. -/
lemma searchLoop_append (fetch : Nat → PageResponse) (pms : Nat)
    (mp : Option Nat) :
    ∀ fuel acc off pc, searchLoop fetch pms mp acc off pc fuel =
      acc ++ searchLoop fetch pms mp [] off pc fuel := by
  intro fuel
  induction fuel with
  | zero => intro acc off pc; simp [searchLoop]
  | succ fuel ih =>
    intro acc off pc
    simp only [searchLoop]
    cases hf : fetch off with
    | transportError => simp
    | noSuccess => simp
    | page rows =>
      by_cases hemp : rows.isEmpty
      · simp [hemp]
      · by_cases hceil : ceilingHit mp (pc + 1)
        · simp [hemp, hceil]
        · by_cases hlen : rows.length < pms
          · simp [hemp, hceil, hlen]
          · simp only [hemp, hceil, hlen, Bool.false_eq_true, if_false,
              if_neg, List.nil_append]
            rw [ih (acc ++ rows), ih rows]
            simp [List.append_assoc]

/-! ## Claim C5 -/

/-- **C5.** With fuel available and the page-count ceiling not reached,
a successful page of exactly `pageMaxSize` rows (more precisely: not
fewer) continues the loop at the offset increased by `pageMaxSize` with
the rows appended, while a successful page with fewer rows than
`pageMaxSize` (including zero) terminates at once with the accumulated
rows; and the result always extends the accumulator in insertion
order. -/
theorem search_pagination (fetch : Nat → PageResponse) (pms : Nat)
    (mp : Option Nat) (acc : List Record) (off pc fuel : Nat)
    (rows : List Record)
    (hrows : fetch off = PageResponse.page rows)
    (hceil : ceilingHit mp (pc + 1) = false) :
    searchLoop fetch pms mp acc off pc (fuel + 1) =
      (if rows.length < pms ∨ rows = [] then acc ++ rows
       else searchLoop fetch pms mp (acc ++ rows) (off + pms) (pc + 1) fuel) ∧
    searchLoop fetch pms mp acc off pc fuel =
      acc ++ searchLoop fetch pms mp [] off pc fuel := by
  refine ⟨?_, searchLoop_append fetch pms mp fuel acc off pc⟩
  simp only [searchLoop, hrows, hceil]
  by_cases hemp : rows.isEmpty
  · obtain rfl : rows = [] := List.isEmpty_iff.mp hemp
    simp
  · have hne : rows ≠ [] := by simpa [List.isEmpty_iff] using hemp
    by_cases hlen : rows.length < pms
    · simp [hemp, hlen]
    · simp [hemp, hlen, hne]

/-- Fetch environment for the C5 witness: a full page of 2 rows at
offset 0, then a short page. -/
def fetchW : Nat → PageResponse :=
  fun off =>
    if off = 0 then PageResponse.page [[("CRN", "1")], [("CRN", "2")]]
    else PageResponse.page [[("CRN", "3")]]

/-- Witness for C5 at `fetchW` with page size 2 and no ceiling. -/
theorem search_pagination_witness :
    searchLoop fetchW 2 none [] 0 0 (5 + 1) =
      (if ([[("CRN", "1")], [("CRN", "2")]] : List Record).length < 2 ∨
          ([[("CRN", "1")], [("CRN", "2")]] : List Record) = [] then
        [] ++ [[("CRN", "1")], [("CRN", "2")]]
       else searchLoop fetchW 2 none ([] ++ [[("CRN", "1")], [("CRN", "2")]])
          (0 + 2) (0 + 1) 5) ∧
    searchLoop fetchW 2 none [] 0 0 5 =
      [] ++ searchLoop fetchW 2 none [] 0 0 5 :=
  search_pagination fetchW 2 none [] 0 0 5 [[("CRN", "1")], [("CRN", "2")]]
    rfl rfl

/-! ## Scrape-run authorization retry (`BannerScraper.scrape_course_schedule`,
lines 706-724; claim C7) -/

/-- Observable events of the scrape run's opening phase: one
`authorize_session` call, one fixed `time.sleep(2)` delay, one top-level
`search_courses` call. -/
inductive ScrapeEv
  | authAttempt
  | sleepDelay
  | searchCall
deriving DecidableEq

/-- The `for attempt in range(3)` retry loop (lines 712-720): `auth i`
is the outcome of the i-th `authorize_session` call; a success breaks
out, a failure logs and sleeps.  Returns the event trace and whether
authorization succeeded. -/
def authLoop (auth : Nat → Bool) : Nat → Nat → List ScrapeEv × Bool
  | _, 0 => ([], false)
  | i, remaining + 1 =>
    if auth i then ([ScrapeEv.authAttempt], true)
    else
      let rest := authLoop auth (i + 1) remaining
      (ScrapeEv.authAttempt :: ScrapeEv.sleepDelay :: rest.1, rest.2)

/-- `scrape_course_schedule` up to and including the search decision
(lines 706-729): 3 authorization attempts; if none succeeds, abort with
an empty result and no search request; otherwise search.  Returns the
scrape result together with the event trace. -/
def scrape_course_schedule (auth : Nat → Bool) (searchRows : List Record) :
    List Record × List ScrapeEv :=
  let p := authLoop auth 0 3
  if p.2 then (searchRows, p.1 ++ [ScrapeEv.searchCall]) else ([], p.1)

/-! ## Claim C7 -/

/-- **C7.** The scrape run makes at most 3 authorization attempts, with a
fixed delay after each failed attempt; when all 3 attempts fail, the run
returns the empty result list and the trace contains no search request —
it is exactly three attempt/delay pairs. -/
theorem scrape_auth_abort (auth : Nat → Bool) (searchRows : List Record)
    (h : auth 0 = false ∧ auth 1 = false ∧ auth 2 = false) :
    (scrape_course_schedule auth searchRows).2.count ScrapeEv.authAttempt ≤ 3 ∧
    (scrape_course_schedule auth searchRows).1 = [] ∧
    ScrapeEv.searchCall ∉ (scrape_course_schedule auth searchRows).2 ∧
    (scrape_course_schedule auth searchRows).2 =
      [ScrapeEv.authAttempt, ScrapeEv.sleepDelay, ScrapeEv.authAttempt,
       ScrapeEv.sleepDelay, ScrapeEv.authAttempt, ScrapeEv.sleepDelay] := by
  obtain ⟨h0, h1, h2⟩ := h
  have htrace : scrape_course_schedule auth searchRows =
      ([], [ScrapeEv.authAttempt, ScrapeEv.sleepDelay, ScrapeEv.authAttempt,
        ScrapeEv.sleepDelay, ScrapeEv.authAttempt, ScrapeEv.sleepDelay]) := by
    simp [scrape_course_schedule, authLoop, h0, h1, h2]
  rw [htrace]
  refine ⟨by decide, rfl, by decide, rfl⟩

/-- Witness for C7: every authorization attempt fails. -/
theorem scrape_auth_abort_witness :
    (scrape_course_schedule (fun _ => false) []).2.count ScrapeEv.authAttempt ≤ 3 ∧
    (scrape_course_schedule (fun _ => false) []).1 = [] ∧
    ScrapeEv.searchCall ∉ (scrape_course_schedule (fun _ => false) []).2 ∧
    (scrape_course_schedule (fun _ => false) []).2 =
      [ScrapeEv.authAttempt, ScrapeEv.sleepDelay, ScrapeEv.authAttempt,
       ScrapeEv.sleepDelay, ScrapeEv.authAttempt, ScrapeEv.sleepDelay] :=
  scrape_auth_abort (fun _ => false) [] ⟨rfl, rfl, rfl⟩

/-! ## Enrollment-detail parsing (`BannerScraper.parse_enrollment_html`,
lines 580-632, and `parse_enrollment_regex`, lines 634-668; claim C9) -/

/-- The six-field enrollment dict, each field defaulting to `"N/A"`. -/
structure EnrollmentInfo where
  enrollment_actual : String
  enrollment_maximum : String
  enrollment_seats_available : String
  waitlist_capacity : String
  waitlist_actual : String
  waitlist_seats_available : String
deriving DecidableEq

/-- Names of the six enrollment fields. -/
inductive EField
  | eActual
  | eMax
  | eSeats
  | wCap
  | wActual
  | wSeats
deriving DecidableEq

/-- Field projection. -/
def EnrollmentInfo.get (info : EnrollmentInfo) : EField → String
  | .eActual => info.enrollment_actual
  | .eMax => info.enrollment_maximum
  | .eSeats => info.enrollment_seats_available
  | .wCap => info.waitlist_capacity
  | .wActual => info.waitlist_actual
  | .wSeats => info.waitlist_seats_available

/-- Field assignment (`enrollment_info[key] = value`). -/
def setField (info : EnrollmentInfo) : EField → String → EnrollmentInfo
  | .eActual, v => { info with enrollment_actual := v }
  | .eMax, v => { info with enrollment_maximum := v }
  | .eSeats, v => { info with enrollment_seats_available := v }
  | .wCap, v => { info with waitlist_capacity := v }
  | .wActual, v => { info with waitlist_actual := v }
  | .wSeats, v => { info with waitlist_seats_available := v }

/-- The all-`"N/A"` dict both parsers start from (lines 582-589 and
636-643). -/
def defaultEnrollment : EnrollmentInfo :=
  ⟨"N/A", "N/A", "N/A", "N/A", "N/A", "N/A"⟩

/-- Lowercase a string (Python `str.lower()`), character-wise. -/
def pyLower (s : String) : String := ⟨s.data.map Char.toLower⟩

/-- Whether `pat` occurs as a contiguous substring (Python `pat in s`). -/
def subOccurs (pat : List Char) : List Char → Bool
  | [] => pat.isEmpty
  | c :: rest => pat.isPrefixOf (c :: rest) || subOccurs pat rest

/-- The label-to-field `elif` chain of the structural parser
(lines 610-621): substring tests against the lowercased label, in source
order. -/
def matchedField (label : String) : Option EField :=
  if subOccurs "enrollment actual".data label.data then some EField.eActual
  else if subOccurs "enrollment maximum".data label.data then some EField.eMax
  else if subOccurs "enrollment seats available".data label.data then
    some EField.eSeats
  else if subOccurs "waitlist capacity".data label.data then some EField.wCap
  else if subOccurs "waitlist actual".data label.data then some EField.wActual
  else if subOccurs "waitlist seats available".data label.data then
    some EField.wSeats
  else none

/-- Assign a parsed value under a (lowercased) label; labels matching no
field are dropped. -/
def assignLabel (label v : String) (info : EnrollmentInfo) : EnrollmentInfo :=
  match matchedField label with
  | some f => setField info f v
  | none => info

/-- One sibling `<span>` element of the HTML fragment, as the structural
parser inspects it: its `status-bold` class, its `dir="ltr"` attribute,
and its stripped text. -/
structure Span where
  isStatusBold : Bool
  isDirLtr : Bool
  text : String
deriving DecidableEq

/-- The structural span walk (lines 599-621): for every `status-bold`
span, find the next following sibling span with `dir="ltr"` and assign
its text under the span's lowercased label. -/
def parseSpans : List Span → EnrollmentInfo → EnrollmentInfo
  | [], info => info
  | s :: rest, info =>
    if s.isStatusBold then
      match rest.find? (fun t => t.isDirLtr) with
      | some t =>
        parseSpans rest (assignLabel (pyLower (pyStrip s.text)) (pyStrip t.text) info)
      | none => parseSpans rest info
    else parseSpans rest info

/-- Case-insensitive character comparison (the regexes are compiled with
`re.IGNORECASE`). -/
def lowerEq (a b : Char) : Bool := a.toLower == b.toLower

/-- Case-insensitive list-level starts-with test. -/
def isPrefixCI : List Char → List Char → Bool
  | [], _ => true
  | _ :: _, [] => false
  | p :: ps, c :: cs => lowerEq p c && isPrefixCI ps cs

/-- Scan for the first (case-insensitive) occurrence of `needle` and
return the remainder after it; `none` when it does not occur. -/
def afterFirstCI (needle : List Char) : List Char → Option (List Char)
  | [] => if needle.isEmpty then some [] else none
  | c :: rest =>
    if isPrefixCI needle (c :: rest) then some (List.drop needle.length (c :: rest))
    else afterFirstCI needle rest

/-- The literal span-open tag of the regex patterns. -/
def spanOpenChars : List Char := ("<span dir=" ++ "\"" ++ "ltr" ++ "\"" ++ ">").data

/-- The literal span-close tag of the regex patterns. -/
def spanCloseChars : List Char := "</span>".data

/-- After a span-open tag, match `\s*(\d+)\s*</span>`: optional
whitespace, at least one digit (the captured group), optional whitespace,
then the closing tag. -/
def readValueAt (l : List Char) : Option String :=
  let l1 := l.dropWhile Char.isWhitespace
  let ds := l1.takeWhile Char.isDigit
  if ds.isEmpty then none
  else if isPrefixCI spanCloseChars ((l1.dropWhile Char.isDigit).dropWhile Char.isWhitespace) then
    some ⟨ds⟩
  else none

/-- The `.*?<span dir="ltr">\s*(\d+)\s*</span>` tail of each pattern:
the non-greedy `.*?` (with `re.DOTALL`) takes the earliest span-open tag
after which the digits-and-close part matches. -/
def findSpanValue : List Char → Option String
  | [] => none
  | c :: rest =>
    if isPrefixCI spanOpenChars (c :: rest) then
      match readValueAt (List.drop spanOpenChars.length (c :: rest)) with
      | some v => some v
      | none => findSpanValue rest
    else findSpanValue rest

/-- One regex pattern `r'{Label}:.*?<span dir="ltr">\s*(\d+)\s*</span>'`
searched over the raw HTML: `re.search` matches at the leftmost
occurrence of the label, then captures the earliest valid span value
after it. -/
def regexField (label : String) (raw : String) : Option String :=
  match afterFirstCI (label.data ++ [':']) raw.data with
  | none => none
  | some rest => findSpanValue rest

/-- The label literal of each field's regex pattern (lines 650-657). -/
def regexLabel : EField → String
  | .eActual => "Enrollment Actual"
  | .eMax => "Enrollment Maximum"
  | .eSeats => "Enrollment Seats Available"
  | .wCap => "Waitlist Capacity"
  | .wActual => "Waitlist Actual"
  | .wSeats => "Waitlist Seats Available"

/-- `parse_enrollment_regex` (lines 634-668): six independent pattern
searches, each field keeping its `"N/A"` default when its pattern does
not match. -/
def parse_enrollment_regex (raw : String) : EnrollmentInfo :=
  if raw = "" then defaultEnrollment
  else
    { enrollment_actual := (regexField (regexLabel EField.eActual) raw).getD "N/A"
      enrollment_maximum := (regexField (regexLabel EField.eMax) raw).getD "N/A"
      enrollment_seats_available :=
        (regexField (regexLabel EField.eSeats) raw).getD "N/A"
      waitlist_capacity := (regexField (regexLabel EField.wCap) raw).getD "N/A"
      waitlist_actual := (regexField (regexLabel EField.wActual) raw).getD "N/A"
      waitlist_seats_available :=
        (regexField (regexLabel EField.wSeats) raw).getD "N/A" }

/-- The HTML fragment handed to `parse_enrollment_html`: the raw string
together with BeautifulSoup's view of it as a run of sibling spans.
(Full HTML parsing is outside the embedding; `spans` is the parsed view
of `raw`.) -/
structure HtmlFragment where
  raw : String
  spans : List Span

/-- `parse_enrollment_html` (lines 580-632): empty input keeps the
defaults; otherwise run the structural span walk, and fall back to the
regex parser on the raw string exactly when the walk leaves
`enrollment_actual` at its `"N/A"` default.  (The source also falls back
on a BeautifulSoup exception, which the total embedding cannot raise.) -/
def parse_enrollment_html (frag : HtmlFragment) : EnrollmentInfo :=
  if frag.raw = "" then defaultEnrollment
  else
    let info := parseSpans frag.spans defaultEnrollment
    if info.enrollment_actual = "N/A" then parse_enrollment_regex frag.raw
    else info

lemma get_setField_ne (info : EnrollmentInfo) (f g : EField) (v : String)
    (hne : f ≠ g) : (setField info g v).get f = info.get f := by
  cases f <;> cases g <;> simp_all [EnrollmentInfo.get, setField]

/-- A field no status-bold span's label matches is left at its incoming
value by the structural walk. -/
lemma parseSpans_get_of_no_label (f : EField) :
    ∀ (spans : List Span) (info : EnrollmentInfo),
      (∀ s ∈ spans, s.isStatusBold = true →
        matchedField (pyLower (pyStrip s.text)) ≠ some f) →
      (parseSpans spans info).get f = info.get f := by
  intro spans
  induction spans with
  | nil => intro info _; rfl
  | cons s rest ih =>
    intro info h
    have hrest : ∀ t ∈ rest, t.isStatusBold = true →
        matchedField (pyLower (pyStrip t.text)) ≠ some f :=
      fun t ht => h t (List.mem_cons_of_mem s ht)
    simp only [parseSpans]
    by_cases hb : s.isStatusBold
    · cases hfind : rest.find? (fun t => t.isDirLtr) with
      | none =>
        simp only [hb, if_true, hfind]
        exact ih _ hrest
      | some t =>
        simp only [hb, if_true, hfind]
        rw [ih _ hrest]
        unfold assignLabel
        cases hm : matchedField (pyLower (pyStrip s.text)) with
        | none => rfl
        | some g =>
          have hgf : g ≠ f := by
            intro hgf
            exact h s (List.mem_cons_self s rest) hb (by rw [hm, hgf])
          exact get_setField_ne info f g _ (Ne.symm hgf)
    · simp only [hb, if_false]
      exact ih _ hrest

lemma defaultEnrollment_get (f : EField) : defaultEnrollment.get f = "N/A" := by
  cases f <;> rfl

lemma parse_enrollment_regex_get (raw : String) (f : EField) (hraw : raw ≠ "") :
    (parse_enrollment_regex raw).get f =
      (regexField (regexLabel f) raw).getD "N/A" := by
  cases f <;> simp [parse_enrollment_regex, hraw, EnrollmentInfo.get]

/-! ## Claim C9 -/

/-- **C9.** On a non-empty HTML fragment the six labeled fields are
extracted by the label/value span walk, and the regex extraction runs as
a fallback exactly when that walk yields no enrollment-actual value
(leaves it `"N/A"`); in both paths a field missing from the input
independently keeps its `"N/A"` default: a field `f` no span label
matches stays `"N/A"` after the walk, and a field whose label does not
occur in the raw string stays `"N/A"` after the regex pass. -/
theorem parse_enrollment_fallback (frag : HtmlFragment) (f : EField)
    (hraw : frag.raw ≠ "")
    (hspan : ∀ s ∈ frag.spans, s.isStatusBold = true →
      matchedField (pyLower (pyStrip s.text)) ≠ some f)
    (hocc : afterFirstCI ((regexLabel f).data ++ [':']) frag.raw.data = none) :
    parse_enrollment_html frag =
      (if (parseSpans frag.spans defaultEnrollment).enrollment_actual = "N/A"
       then parse_enrollment_regex frag.raw
       else parseSpans frag.spans defaultEnrollment) ∧
    (parseSpans frag.spans defaultEnrollment).get f = "N/A" ∧
    (parse_enrollment_regex frag.raw).get f = "N/A" := by
  refine ⟨?_, ?_, ?_⟩
  · simp [parse_enrollment_html, hraw]
  · rw [parseSpans_get_of_no_label f frag.spans defaultEnrollment hspan]
    exact defaultEnrollment_get f
  · rw [parse_enrollment_regex_get frag.raw f hraw, regexField, hocc]
    rfl

/-- Fragment for the C9 witness: one label/value span pair for the
actual-enrollment field; the raw text never mentions the maximum. -/
def fragW : HtmlFragment :=
  { raw := "Enrollment Actual: 7"
    spans := [⟨true, false, "Enrollment Actual:"⟩, ⟨false, true, "7"⟩] }

/-- Witness for C9 at `fragW` and the enrollment-maximum field. -/
theorem parse_enrollment_fallback_witness :
    parse_enrollment_html fragW =
      (if (parseSpans fragW.spans defaultEnrollment).enrollment_actual = "N/A"
       then parse_enrollment_regex fragW.raw
       else parseSpans fragW.spans defaultEnrollment) ∧
    (parseSpans fragW.spans defaultEnrollment).get EField.eMax = "N/A" ∧
    (parse_enrollment_regex fragW.raw).get EField.eMax = "N/A" :=
  parse_enrollment_fallback fragW EField.eMax (by decide) (by decide) (by decide)

end BannerSpec
